import Mathlib

/-!
Verification development for the TRAPD honeypot engine
(backend/rust_honeypots: http_honeypot.rs, ssh_honeypot.rs, common.rs).

The Rust code is shallowly embedded:
* Rust `String`/`&str` values are Lean `String`s; the string operations the
  code uses (`to_lowercase`, `to_uppercase`, `contains`, `starts_with`,
  `trim`, `find`) are implemented here on the underlying character lists so
  that they are executable by kernel reduction.
* `HeaderMap` is an association list of (name, value) pairs; lookup is
  case-insensitive, mirroring the header-name normalisation of the HTTP
  layer.
* Rust `f32`/`f64` arithmetic on the heuristic scores is idealised as exact
  rational arithmetic over `ℚ` (all constants involved are short decimal
  literals).
* `i64`/`u32` arithmetic is modelled on `Int`/`Nat`; Rust's truncating
  integer division is `Int.tdiv`.  Overflow is not reachable for the
  quantities involved.
* Regex matching (the `regex` crate) is kept abstract: scanner-signature
  matching is parametrised by an arbitrary matcher
  `m : String → String → Bool` standing for `Regex::new(pat).is_match s`
  (with `false` for patterns that fail to compile).  Plain substring checks
  in the code (`str::contains`) are modelled concretely.
* Effectful functions are modelled as pure functions returning the data
  they would dispatch, plus explicit markers for the side effects the
  claims talk about (e.g. whether the geolocation provider was called).
-/

/-! ## Character-list string operations -/

/-- Does the first list occur as a prefix of the second? -/
def charsStartWith : List Char → List Char → Bool
  | [], _ => true
  | _ :: _, [] => false
  | a :: as, b :: bs => a == b && charsStartWith as bs

/-- Does the first list occur as a contiguous sublist of the second?
Models Rust `str::contains` on the character level. -/
def charsContain (pat : List Char) : List Char → Bool
  | [] => pat.isEmpty
  | c :: rest => charsStartWith pat (c :: rest) || charsContain pat rest

/-- Index (in characters) of the first occurrence of `pat`, if any.
Models Rust `str::find` (byte indices and char indices agree on the ASCII
data the claims exercise). -/
def charsFindFrom (pat : List Char) : List Char → Nat → Option Nat
  | [], i => if pat.isEmpty then some i else none
  | c :: rest, i =>
      if charsStartWith pat (c :: rest) then some i
      else charsFindFrom pat rest (i + 1)

/-- Index of the first character satisfying `p`, if any. -/
def charsFindIdx (p : Char → Bool) : List Char → Option Nat
  | [] => none
  | c :: rest => if p c then some 0 else (charsFindIdx p rest).map (· + 1)

/-- Rust `str::trim` on the character level. -/
def trimChars (l : List Char) : List Char :=
  ((l.dropWhile Char.isWhitespace).reverse.dropWhile Char.isWhitespace).reverse

/-- Rust `str::to_lowercase` (ASCII-faithful). -/
def toLowerStr (s : String) : String := ⟨s.data.map Char.toLower⟩

/-- Rust `str::to_uppercase` (ASCII-faithful). -/
def toUpperStr (s : String) : String := ⟨s.data.map Char.toUpper⟩

/-- Rust `str::contains` for strings. -/
def strContains (s pat : String) : Bool := charsContain pat.data s.data

/-- Rust `str::starts_with` for strings. -/
def strStartsWith (s pat : String) : Bool := charsStartWith pat.data s.data

/-- Rust `str::trim` for strings. -/
def strTrim (s : String) : String := ⟨trimChars s.data⟩

/-- Rust `str::find` for a string pattern. -/
def strFind (s pat : String) : Option Nat := charsFindFrom pat.data s.data 0

/-- Drop the first `n` characters of a string (models slicing `&s[n..]`). -/
def strDrop (s : String) (n : Nat) : String := ⟨s.data.drop n⟩

/-- Take the first `n` characters of a string (models slicing `&s[..n]`). -/
def strTake (s : String) (n : Nat) : String := ⟨s.data.take n⟩

/-! ## Header maps

`axum::http::HeaderMap` stores header names case-insensitively; we model it
as an association list whose lookups compare names case-insensitively. -/

/-- An HTTP header map: (name, value) pairs; lookup is case-insensitive. -/
def Headers : Type := List (String × String)

/-- Definition `HeaderMap::get`: first value whose name matches case-insensitively. -/
def hget (headers : Headers) (name : String) : Option String :=
  (List.find? (fun kv => toLowerStr kv.1 == toLowerStr name) headers).map (fun kv => kv.2)

/-- Definition `HeaderMap::contains_key`, case-insensitive. -/
def containsKey (headers : Headers) (name : String) : Bool :=
  List.any headers (fun kv => toLowerStr kv.1 == toLowerStr name)

/-! ## `should_ignore_request` and the wildcard handlers (http_honeypot.rs)

`honeypot_handler` / `honeypot_handler_post` first run
`should_ignore_request`; on a hit they return the fixed simple-404 body and
nothing else happens (no geolocation, no fingerprinting, no dispatch to the
log store or the disinformation generator).  Otherwise the request enters
`log_http_interaction`, which performs all of those.  The handler is
modelled as a function into `HttpAction`, whose `processed` constructor
marks entry into the capture/dispatch pipeline. -/

/-- The fixed list of ignored paths in `should_ignore_request`. -/
def ignore_paths : List String :=
  ["/favicon.ico",
   "/robots.txt",
   "/sitemap.xml",
   "/apple-touch-icon.png",
   "/apple-touch-icon-precomposed.png",
   "/.well-known/security.txt",
   "/browserconfig.xml",
   "/manifest.json"]

/-- Definition `should_ignore_request` from http_honeypot.rs. -/
def should_ignore_request (path : String) (headers : Headers) : Bool :=
  if ignore_paths.contains path then
    true
  else if (match hget headers "access-control-request-method" with
           | some method => toUpperStr method == "OPTIONS"
           | none => false) then
    true
  else if strStartsWith path "/sw.js" || strStartsWith path "/service-worker" then
    true
  else
    false

/-- The body returned by `generate_simple_404`. -/
def generate_simple_404 : String :=
  "<!DOCTYPE html>\n<html>\n<head><title>404 Not Found</title></head>\n<body><h1>404 Not Found</h1><p>The requested resource was not found.</p></body>\n</html>"

/-- Observable outcome of the wildcard HTTP handler: either the early
simple-404 return, or entry into the full capture/enrichment/dispatch
pipeline (`log_http_interaction`). -/
inductive HttpAction where
  | ignored (body : String)
  | processed
  deriving DecidableEq

/-- The ignore gate shared by `honeypot_handler` and
`honeypot_handler_post`: which of the two continuations runs. -/
def honeypot_handler (path : String) (headers : Headers) : HttpAction :=
  if should_ignore_request path headers then HttpAction.ignored generate_simple_404
  else HttpAction.processed

/-! ## Browser authenticity analyzer (`analyze_browser_authenticity`) -/

/-- Denylist of explicit non-browser user-agent tokens (the
`non_browser_indicators` array in the source). -/
def non_browser_indicators : List String :=
  ["curl", "wget", "python", "requests", "bot", "crawler", "scanner",
   "nmap", "masscan", "gobuster", "nikto", "sqlmap", "burp"]

/-- Recognized browser user-agent tokens (the `browser_patterns` array). -/
def browser_patterns : List String :=
  ["mozilla", "chrome", "safari", "firefox", "edge", "opera"]

/-- Definition `analyze_browser_authenticity` from http_honeypot.rs.  The for-loop over
the denylist with an early `return false` is the `List.any` test. -/
def analyze_browser_authenticity (user_agent accept accept_language accept_encoding : String)
    (headers : Headers) : Bool :=
  let ua_lower := toLowerStr user_agent
  if non_browser_indicators.any (fun indicator => strContains ua_lower indicator) then
    false
  else
    let has_browser_pattern := browser_patterns.any (fun pattern => strContains ua_lower pattern)
    let has_accept := !(accept == "")
    let has_accept_language := !(accept_language == "")
    let has_accept_encoding := !(accept_encoding == "") && strContains accept_encoding "gzip"
    let has_sec_fetch := containsKey headers "sec-fetch-dest" ||
                         containsKey headers "sec-fetch-mode" ||
                         containsKey headers "sec-fetch-site"
    let score : Nat :=
      (if has_browser_pattern then 2 else 0) +
      (if has_accept then 1 else 0) +
      (if has_accept_language then 1 else 0) +
      (if has_accept_encoding then 1 else 0) +
      (if has_sec_fetch then 2 else 0)
    decide (4 ≤ score)

/-- The integer score described by the specification sentence for the
browser analyzer, written from the spec's words: +2 for a recognized
browser token, +1 for non-empty Accept, +1 for non-empty Accept-Language,
+1 for Accept-Encoding containing gzip, +2 for any sec-fetch header. -/
def specAuthenticityScore (user_agent accept accept_language accept_encoding : String)
    (headers : Headers) : Nat :=
  (if browser_patterns.any (fun pattern => strContains (toLowerStr user_agent) pattern) then 2 else 0) +
  (if accept ≠ "" then 1 else 0) +
  (if accept_language ≠ "" then 1 else 0) +
  (if strContains accept_encoding "gzip" then 1 else 0) +
  (if containsKey headers "sec-fetch-dest" = true ∨ containsKey headers "sec-fetch-mode" = true ∨
      containsKey headers "sec-fetch-site" = true then 2 else 0)

/-! ## Generic scanner indicators (`check_additional_scanner_indicators`) -/

/-- The `suspicious_headers` array from the source. -/
def suspicious_headers : List String :=
  ["X-Forwarded-For", "X-Real-IP", "X-Originating-IP",
   "X-Scanner", "X-Tool", "X-Automated"]

/-- The `browser_headers` array from the source. -/
def browser_headers : List String :=
  ["Accept", "Accept-Language", "Accept-Encoding", "Cache-Control"]

/-- The SQL-injection regex pattern strings from the source. -/
def sql_patterns : List String :=
  ["union\\s+select", "or\\s+1=1", "and\\s+1=1", "drop\\s+table",
   "insert\\s+into", "delete\\s+from", "update\\s+set"]

/-- The XSS pattern strings from the source (checked by plain substring
containment against the path, exactly as `str::contains` does there). -/
def xss_patterns : List String :=
  ["<script", "javascript:", "onload=", "onerror=", "alert\\("]

/-- The SQL-injection body check of `check_additional_scanner_indicators`:
the for-loop over `sql_patterns` with a `break` on the first regex hit
against the lowercased body. -/
def sqlBodyHit (m : String → String → Bool) : Option String → Bool
  | some body => sql_patterns.any (fun pattern => m pattern (toLowerStr body))
  | none => false

/-- The XSS check of `check_additional_scanner_indicators`: the for-loop
over `xss_patterns` testing substring containment against the lowercased
path, with a `break` on the first hit. -/
def xssPathHit (request_path : String) : Bool :=
  xss_patterns.any (fun pattern => strContains (toLowerStr request_path) pattern)

/-- The same XSS substring test applied to the body (used only by the
claim's reading, not by the code). -/
def xssBodyHit : Option String → Bool
  | some body => xss_patterns.any (fun pattern => strContains (toLowerStr body) pattern)
  | none => false

/-- Definition `check_additional_scanner_indicators` from http_honeypot.rs.
`m pat s` stands for `Regex::new(pat).is_match(s)` (false when the pattern
fails to compile); the XSS loop uses `str::contains`, which is concrete.
The SQL and XSS loops `break` after the first hit, so each contributes its
bonus at most once: they are `List.any` tests. -/
def check_additional_scanner_indicators (m : String → String → Bool) (headers : Headers)
    (request_path : String) (request_body : Option String) : ℚ :=
  let score : ℚ := 0
  let score := suspicious_headers.foldl
    (fun acc header => if containsKey headers header then acc + 0.1 else acc) score
  let missing_headers :=
    (browser_headers.filter (fun header => !(containsKey headers header))).length
  let score := if 2 < missing_headers then score + 0.2 else score
  let score := if sqlBodyHit m request_body then score + 0.3 else score
  let score := if xssPathHit request_path then score + 0.2 else score
  score

/-- The generic indicator score exactly as the claim states it, written from
the claim's words; it differs from the code in the last summand: the claim
awards +0.2 if the path **or the body** matches an XSS pattern. -/
def claimIndicatorScore (m : String → String → Bool) (headers : Headers)
    (request_path : String) (request_body : Option String) : ℚ :=
  let suspiciousPart : ℚ :=
    ((suspicious_headers.countP (fun header => containsKey headers header)) : ℚ) * 0.1
  let missingPart : ℚ :=
    if 2 < browser_headers.countP (fun header => !(containsKey headers header)) then 0.2 else 0
  let sqlPart : ℚ := if sqlBodyHit m request_body then 0.3 else 0
  let xssPart : ℚ := if xssPathHit request_path || xssBodyHit request_body then 0.2 else 0
  suspiciousPart + missingPart + sqlPart + xssPart

/-- The same generic indicator score with the claim amended to what the code
does: the XSS bonus looks at the request path only. -/
def amendedIndicatorScore (m : String → String → Bool) (headers : Headers)
    (request_path : String) (request_body : Option String) : ℚ :=
  let suspiciousPart : ℚ :=
    ((suspicious_headers.countP (fun header => containsKey headers header)) : ℚ) * 0.1
  let missingPart : ℚ :=
    if 2 < browser_headers.countP (fun header => !(containsKey headers header)) then 0.2 else 0
  let sqlPart : ℚ := if sqlBodyHit m request_body then 0.3 else 0
  let xssPart : ℚ := if xssPathHit request_path then 0.2 else 0
  suspiciousPart + missingPart + sqlPart + xssPart

/-! ## Scanner signature catalog and `detect_scanner_tool` -/

/-- Definition `TimingSignature` from http_honeypot.rs. -/
structure TimingSignature where
  min_interval_ms : Nat
  max_interval_ms : Nat
  burst_size : Nat
  deriving DecidableEq

/-- Definition `ScannerSignature` from http_honeypot.rs (`confidence_threshold` is an
`f32`, idealised as `ℚ`). -/
structure ScannerSignature where
  name : String
  user_agent_patterns : List String
  header_patterns : List (String × String)
  path_patterns : List String
  timing_signature : Option TimingSignature
  confidence_threshold : ℚ
  deriving DecidableEq

/-- The static `SCANNER_SIGNATURES` catalog, transcribed from the source. -/
def SCANNER_SIGNATURES : List ScannerSignature :=
  [{ name := "Nmap",
     user_agent_patterns := ["nmap", ".*nmap.*"],
     header_patterns := [("User-Agent", ".*NSE.*")],
     path_patterns := [],
     timing_signature := some { min_interval_ms := 100, max_interval_ms := 2000, burst_size := 10 },
     confidence_threshold := 0.8 },
   { name := "Masscan",
     user_agent_patterns := ["masscan", ".*masscan.*"],
     header_patterns := [],
     path_patterns := [],
     timing_signature := some { min_interval_ms := 1, max_interval_ms := 100, burst_size := 100 },
     confidence_threshold := 0.9 },
   { name := "Gobuster",
     user_agent_patterns := ["gobuster", ".*gobuster.*"],
     header_patterns := [],
     path_patterns := ["/admin.*", "/login.*", "/config.*"],
     timing_signature := some { min_interval_ms := 50, max_interval_ms := 500, burst_size := 20 },
     confidence_threshold := 0.7 },
   { name := "Nikto",
     user_agent_patterns := [".*Nikto.*", ".*nikto.*"],
     header_patterns := [],
     path_patterns := ["/cgi-bin/.*", "/scripts/.*"],
     timing_signature := some { min_interval_ms := 200, max_interval_ms := 1000, burst_size := 5 },
     confidence_threshold := 0.8 },
   { name := "SQLMap",
     user_agent_patterns := [".*sqlmap.*"],
     header_patterns := [],
     path_patterns := [],
     timing_signature := none,
     confidence_threshold := 0.9 },
   { name := "Burp Suite",
     user_agent_patterns := [".*Burp.*", ".*burp.*"],
     header_patterns := [],
     path_patterns := [],
     timing_signature := none,
     confidence_threshold := 0.8 },
   { name := "Generic Scanner/Bot",
     user_agent_patterns := [".*bot.*", ".*crawler.*", ".*scanner.*", ".*spider.*",
                             "python-requests.*", "curl.*", "wget.*"],
     header_patterns := [],
     path_patterns := [],
     timing_signature := none,
     confidence_threshold := 0.6 }]

/-- User-Agent component of a signature's score: +0.4 per matching pattern,
checked against the lowercased User-Agent header value (absent or
non-string header values contribute nothing). -/
def sigUserAgentScore (m : String → String → Bool) (headers : Headers)
    (sig : ScannerSignature) : ℚ :=
  match hget headers "User-Agent" with
  | some ua =>
      sig.user_agent_patterns.foldl
        (fun acc pattern => if m pattern (toLowerStr ua) then acc + 0.4 else acc) 0
  | none => 0

/-- Header-pattern component: +0.3 per matching (header, regex) pair. -/
def sigHeaderScore (m : String → String → Bool) (headers : Headers)
    (sig : ScannerSignature) : ℚ :=
  sig.header_patterns.foldl
    (fun acc hp =>
      match hget headers hp.1 with
      | some value => if m hp.2 (toLowerStr value) then acc + 0.3 else acc
      | none => acc) 0

/-- Path-pattern component: +0.2 per pattern matching the lowercased path. -/
def sigPathScore (m : String → String → Bool) (request_path : String)
    (sig : ScannerSignature) : ℚ :=
  sig.path_patterns.foldl
    (fun acc pattern => if m pattern (toLowerStr request_path) then acc + 0.2 else acc) 0

/-- The accumulated `confidence` one loop iteration of `detect_scanner_tool`
computes for a signature (UA + header + path components plus the
signature-independent generic indicators, which the code adds inside the
loop for every signature). -/
def sigScore (m : String → String → Bool) (headers : Headers) (request_path : String)
    (request_body : Option String) (sig : ScannerSignature) : ℚ :=
  sigUserAgentScore m headers sig + sigHeaderScore m headers sig +
    sigPathScore m request_path sig +
    check_additional_scanner_indicators m headers request_path request_body

/-- The accumulator loop of `detect_scanner_tool`: `best_match` and
`highest_confidence` are threaded through the catalog; a signature replaces
them only when its score strictly exceeds its own threshold and the best
score so far. -/
def detectGo (m : String → String → Bool) (headers : Headers) (request_path : String)
    (request_body : Option String) :
    List ScannerSignature → Option String × ℚ → Option String × ℚ
  | [], acc => acc
  | sig :: rest, acc =>
      let confidence := sigScore m headers request_path request_body sig
      if sig.confidence_threshold < confidence ∧ acc.2 < confidence then
        detectGo m headers request_path request_body rest (some sig.name, confidence)
      else
        detectGo m headers request_path request_body rest acc

/-- Definition `detect_scanner_tool` from http_honeypot.rs: fold the catalog starting
from `(None, 0.0)` and clamp the final confidence with `.min(1.0)`. -/
def detect_scanner_tool (m : String → String → Bool) (headers : Headers)
    (request_path : String) (request_body : Option String) : Option String × ℚ :=
  let r := detectGo m headers request_path request_body SCANNER_SIGNATURES (none, 0)
  (r.1, min r.2 1)

/-! ## Timing tracker (`analyze_timing_patterns`, `determine_scan_pattern`)

Timestamps are integers in milliseconds (`chrono::DateTime<Utc>` differences
via `num_milliseconds`).  The process-wide `TIMING_TRACKER` map is a
function from source-IP strings to timestamp lists, `[]` playing the role of
`or_insert_with(Vec::new)`. -/

/-- Definition `ScanPattern` from http_honeypot.rs. -/
inductive ScanPattern where
  | sequential
  | random
  | dictionary
  | bruteforce
  | normal
  deriving DecidableEq

/-- Definition `ThreatLevel` from http_honeypot.rs. -/
inductive ThreatLevel where
  | low
  | medium
  | high
  | critical
  deriving DecidableEq

/-- Definition `TimingPattern` from http_honeypot.rs (`request_interval_ms : u64`). -/
structure TimingPattern where
  request_interval_ms : Option Nat
  burst_requests : Nat
  scan_pattern : ScanPattern
  deriving DecidableEq

/-- Rust `as u64` on an `i64` value: two's-complement reinterpretation. -/
def u64cast (i : Int) : Nat := (i % (2 ^ 64 : Int)).toNat

/-- Consecutive inter-arrival differences (`requests.windows(2)` mapped to
`window[1] - window[0]` in milliseconds). -/
def intervalsOf (requests : List Int) : List Int :=
  (requests.zip requests.tail).map (fun w => w.2 - w.1)

/-- Definition `determine_scan_pattern` from http_honeypot.rs.  `avg_interval` and
`variance` use Rust `i64` division, which truncates toward zero
(`Int.tdiv`). -/
def determine_scan_pattern (requests : List Int) : ScanPattern :=
  if requests.length < 3 then
    ScanPattern.normal
  else
    let intervals := intervalsOf requests
    if intervals.all (fun interval => decide (interval < 100)) then
      ScanPattern.bruteforce
    else
      let avg_interval := Int.tdiv intervals.sum intervals.length
      let variance :=
        Int.tdiv ((intervals.map (fun interval => (interval - avg_interval) ^ 2)).sum)
          intervals.length
      if variance < 1000 then ScanPattern.sequential
      else if avg_interval < 1000 then ScanPattern.dictionary
      else ScanPattern.random

/-- Definition `count_recent_burst_requests`: timestamps strictly within the trailing
10 seconds. -/
def count_recent_burst_requests (requests : List Int) (now : Int) : Nat :=
  (requests.filter (fun timestamp => decide (now - 10000 < timestamp))).length

/-- Definition `analyze_timing_patterns` for one source's stored list: push `now`, trim
to the last 100 entries, compute the timing pattern, then prune entries not
strictly newer than one hour before `now`.  Returns the reported pattern and
the list left in the tracker. -/
def analyze_timing_patterns (prev : List Int) (now : Int) : TimingPattern × List Int :=
  let requests := prev ++ [now]
  let requests := if 100 < requests.length then requests.drop (requests.length - 100) else requests
  let request_interval_ms : Option Nat :=
    match requests.reverse with
    | newest :: second :: _ => some (u64cast (newest - second))
    | _ => none
  let burst_requests := count_recent_burst_requests requests now
  let scan_pattern := determine_scan_pattern requests
  let pruned := requests.filter (fun timestamp => decide (now - 3600000 < timestamp))
  (⟨request_interval_ms, burst_requests, scan_pattern⟩, pruned)

/-- The process-wide timing tracker: source IP → stored timestamps. -/
def TrackerState : Type := String → List Int

/-- One tracker access: run `analyze_timing_patterns` for `ip` at time `now`
and store the pruned list back under `ip`. -/
def trackerStep (st : TrackerState) (ip : String) (now : Int) : TrackerState :=
  fun k => if k = ip then (analyze_timing_patterns (st ip) now).2 else st k

/-- Replay a trace of accesses, most recent first; the empty map is the
initial state. -/
def trackerRun : List (String × Int) → TrackerState
  | [] => fun _ => []
  | (ip, now) :: older => trackerStep (trackerRun older) ip now

/-- Time of the most recent access to `ip` in a (most-recent-first) trace. -/
def lastAccess : List (String × Int) → String → Option Int
  | [], _ => none
  | (k, t) :: older, ip => if k = ip then some t else lastAccess older ip

/-- The scan-pattern classifier exactly as the claim states it: exact
rational mean and population variance of the inter-arrival intervals. -/
def claimScanPattern (requests : List Int) : ScanPattern :=
  if requests.length < 3 then
    ScanPattern.normal
  else
    let intervals := intervalsOf requests
    if intervals.all (fun interval => decide (interval < 100)) then
      ScanPattern.bruteforce
    else
      let mean : ℚ := (intervals.sum : ℚ) / (intervals.length : ℚ)
      let variance : ℚ :=
        ((intervals.map (fun interval => ((interval : ℚ) - mean) ^ 2)).sum) / (intervals.length : ℚ)
      if variance < 1000 then ScanPattern.sequential
      else if mean < 1000 then ScanPattern.dictionary
      else ScanPattern.random

/-! ## Threat aggregation (`calculate_threat_level`) -/

/-- Definition `BrowserFingerprint` from http_honeypot.rs. -/
structure BrowserFingerprint where
  is_real_browser : Bool
  engine : Option String
  version : Option String
  os : Option String
  javascript_enabled : Bool
  canvas_fingerprint : Option String
  deriving DecidableEq

/-- Definition `calculate_threat_level` from http_honeypot.rs, accumulating
`threat_score` exactly as the source does. -/
def calculate_threat_level (scanner_confidence : ℚ) (timing_patterns : TimingPattern)
    (browser_fingerprint : Option BrowserFingerprint) : ThreatLevel :=
  let threat_score : ℚ := 0
  let threat_score := threat_score + scanner_confidence * 4
  let threat_score := threat_score +
    (match timing_patterns.scan_pattern with
     | ScanPattern.bruteforce => (3 : ℚ)
     | ScanPattern.sequential => 2
     | ScanPattern.dictionary => 2.5
     | ScanPattern.random => 1
     | ScanPattern.normal => 0)
  let threat_score := threat_score +
    (if 50 < timing_patterns.burst_requests then (2 : ℚ)
     else if 10 < timing_patterns.burst_requests then 1
     else 0)
  let threat_score := threat_score +
    (match browser_fingerprint with
     | some browser => if !browser.is_real_browser then (2 : ℚ) else 0
     | none => 0)
  if 7 ≤ threat_score then ThreatLevel.critical
  else if 5 ≤ threat_score then ThreatLevel.high
  else if 3 ≤ threat_score then ThreatLevel.medium
  else ThreatLevel.low

/-- The pattern bonus table from the claim. -/
def patternBonus : ScanPattern → ℚ
  | ScanPattern.bruteforce => 3
  | ScanPattern.dictionary => 2.5
  | ScanPattern.sequential => 2
  | ScanPattern.random => 1
  | ScanPattern.normal => 0

/-- The burst bonus from the claim: 2.0 above 50, 1.0 above 10, else 0. -/
def burstBonus (burst_requests : Nat) : ℚ :=
  if 50 < burst_requests then 2 else if 10 < burst_requests then 1 else 0

/-- The browser bonus from the claim: 2.0 when the analyzer judged the
request not a real browser. -/
def browserBonus : Option BrowserFingerprint → ℚ
  | some browser => if browser.is_real_browser = false then 2 else 0
  | none => 0

/-- The aggregated threat score as the claim's formula states it. -/
def specThreatScore (scanner_confidence : ℚ) (pattern : ScanPattern) (burst_requests : Nat)
    (browser_fingerprint : Option BrowserFingerprint) : ℚ :=
  4 * scanner_confidence + patternBonus pattern + burstBonus burst_requests +
    browserBonus browser_fingerprint

/-! ## Geolocation lookup (`lookup_geoip` in common.rs)

The single outbound provider call is abstracted as an optional
`GeoApiResponse` argument (`none` = transport error).  The returned pair's
first component records whether the provider call was made at all. -/

/-- Definition `GeoLocation` from common.rs (`f64` coordinates idealised as `ℚ`). -/
structure GeoLocation where
  country_code : Option String
  country_name : Option String
  region_code : Option String
  region_name : Option String
  city : Option String
  latitude : Option ℚ
  longitude : Option ℚ
  timezone : Option String
  isp : Option String
  organization : Option String
  deriving DecidableEq

/-- Definition `GeoLocation::default()`: every field `None`. -/
def geoLocationDefault : GeoLocation :=
  { country_code := none, country_name := none, region_code := none, region_name := none,
    city := none, latitude := none, longitude := none, timezone := none, isp := none,
    organization := none }

/-- An IP address: four IPv4 octets or eight IPv6 16-bit segments. -/
inductive IpAddr where
  | v4 (a b c d : Nat)
  | v6 (s0 s1 s2 s3 s4 s5 s6 s7 : Nat)
  deriving DecidableEq

/-- Definition `Ipv4Addr::is_private`: 10/8, 172.16/12, 192.168/16. -/
def ipv4IsPrivate (a b : Nat) : Bool :=
  a == 10 || (a == 172 && 16 ≤ b && b ≤ 31) || (a == 192 && b == 168)

/-- Definition `Ipv4Addr::is_loopback`: 127/8. -/
def ipv4IsLoopback (a : Nat) : Bool := a == 127

/-- Definition `Ipv4Addr::is_multicast`: 224/4. -/
def ipv4IsMulticast (a : Nat) : Bool := 224 ≤ a && a ≤ 239

/-- Definition `Ipv6Addr::is_loopback`: `::1`. -/
def ipv6IsLoopback (s0 s1 s2 s3 s4 s5 s6 s7 : Nat) : Bool :=
  s0 == 0 && s1 == 0 && s2 == 0 && s3 == 0 && s4 == 0 && s5 == 0 && s6 == 0 && s7 == 1

/-- Definition `Ipv6Addr::is_multicast`: first segment starts `0xff`. -/
def ipv6IsMulticast (s0 : Nat) : Bool := s0 / 256 == 255

/-- Definition `Ipv6Addr::is_unspecified`: `::`. -/
def ipv6IsUnspecified (s0 s1 s2 s3 s4 s5 s6 s7 : Nat) : Bool :=
  s0 == 0 && s1 == 0 && s2 == 0 && s3 == 0 && s4 == 0 && s5 == 0 && s6 == 0 && s7 == 0

/-- The `is_private` test of `lookup_geoip`: for IPv4, private or loopback
or multicast; for IPv6, loopback or multicast or unspecified. -/
def lookupSkipClass : IpAddr → Bool
  | IpAddr.v4 a b _ _ => ipv4IsPrivate a b || ipv4IsLoopback a || ipv4IsMulticast a
  | IpAddr.v6 s0 s1 s2 s3 s4 s5 s6 s7 =>
      ipv6IsLoopback s0 s1 s2 s3 s4 s5 s6 s7 || ipv6IsMulticast s0 ||
        ipv6IsUnspecified s0 s1 s2 s3 s4 s5 s6 s7

/-- Definition `Ipv4Addr::is_link_local`: 169.254/16 (used by the claim's class, not by
the code). -/
def ipv4IsLinkLocal (a b : Nat) : Bool := a == 169 && b == 254

/-- IPv6 unicast link-local: fe80::/10. -/
def ipv6IsLinkLocal (s0 : Nat) : Bool := s0 / 64 == 1018

/-- IPv6 unique-local (private): fc00::/7. -/
def ipv6IsUniqueLocal (s0 : Nat) : Bool := s0 / 512 == 126

/-- The class of addresses the claim says are never looked up: private,
loopback, multicast, link-local, or unspecified, for IPv4 or IPv6. -/
def claimSkipClass : IpAddr → Bool
  | IpAddr.v4 a b c d =>
      ipv4IsPrivate a b || ipv4IsLoopback a || ipv4IsMulticast a || ipv4IsLinkLocal a b ||
        (a == 0 && b == 0 && c == 0 && d == 0)
  | IpAddr.v6 s0 s1 s2 s3 s4 s5 s6 s7 =>
      ipv6IsUniqueLocal s0 || ipv6IsLoopback s0 s1 s2 s3 s4 s5 s6 s7 || ipv6IsMulticast s0 ||
        ipv6IsLinkLocal s0 || ipv6IsUnspecified s0 s1 s2 s3 s4 s5 s6 s7

/-- The parsed provider JSON body: the `status` flag and the data fields
`lookup_geoip` extracts. -/
structure GeoJson where
  status : Option String
  countryCode : Option String
  country : Option String
  region : Option String
  regionName : Option String
  city : Option String
  lat : Option ℚ
  lon : Option ℚ
  timezone : Option String
  isp : Option String
  org : Option String
  deriving DecidableEq

/-- Outcome of the single `http_client.get(..).send()` call:
`status_success` is `response.status().is_success()`, `body` is the result
of parsing the body as JSON (`none` = parse failure). -/
structure GeoApiResponse where
  status_success : Bool
  body : Option GeoJson
  deriving DecidableEq

/-- Definition `lookup_geoip` from common.rs.  The first component of the result
records whether the provider call was attempted; the second is the returned
location.  Every failure branch falls through to `GeoLocation::default()`. -/
def lookup_geoip (ip : IpAddr) (provider : Option GeoApiResponse) : Bool × GeoLocation :=
  if lookupSkipClass ip then
    (false, geoLocationDefault)
  else
    (true,
      match provider with
      | some response =>
          if response.status_success then
            match response.body with
            | some geo_data =>
                if geo_data.status == some "success" then
                  { country_code := geo_data.countryCode, country_name := geo_data.country,
                    region_code := geo_data.region, region_name := geo_data.regionName,
                    city := geo_data.city, latitude := geo_data.lat, longitude := geo_data.lon,
                    timezone := geo_data.timezone, isp := geo_data.isp,
                    organization := geo_data.org }
                else geoLocationDefault
            | none => geoLocationDefault
          else geoLocationDefault
      | none => geoLocationDefault)

/-! ## SSH honeypot (`handle_ssh_connection`, `extract_from_raw`)

The handler's observable behaviour is the ordered list of socket/dispatch
events it performs.  The read step is abstracted as a `ReadOutcome`; the
`urlencoding::encode` crate call is an abstract `encode` parameter. -/

/-- Outcome of the 2-second banner read:`ok data` is `Ok(Ok(n))` with the
lossily decoded bytes; `failed` is any timeout or read error (the `_` arm
of the source `match`). -/
inductive ReadOutcome where
  | ok (data : String)
  | failed
  deriving DecidableEq

/-- The raw client data the handler works on: the read bytes, or the
sentinel string on timeout/error. -/
def clientDataRaw : ReadOutcome → String
  | ReadOutcome.ok data => data
  | ReadOutcome.failed => "No client banner or read error"

/-- Definition `extract_from_raw` from ssh_honeypot.rs: find the key token in the
lowercased data, then (at the same index in the original data) look after
the key for the first `=` or whitespace, and return the text from there up
to the next newline, trimmed.  (`keyToken` is the source's key-prefix
parameter.) -/
def extract_from_raw (raw_data : String) (keyToken : String) (_default_value : String) :
    Option String :=
  let lower_raw := toLowerStr raw_data
  match strFind lower_raw keyToken with
  | none => none
  | some start_idx =>
      let after_key := strDrop raw_data (start_idx + keyToken.length)
      match charsFindIdx (fun c => c == '=' || c.isWhitespace) after_key.data with
      | none => none
      | some val_start_idx =>
          let value_part := strDrop after_key val_start_idx
          match strFind value_part "\n" with
          | none => none
          | some val_end_idx => some (strTrim (strTake value_part val_end_idx))

/-- The `interaction_data` record the SSH handler logs. -/
structure SshInteraction where
  client_banner : String
  username_attempt : String
  password_attempt : String
  login_method : String
  client_ip : String
  client_port : Nat
  deriving DecidableEq

/-- Observable events of one SSH connection, in order. -/
inductive SshEvent where
  | sentBanner
  | logged (interaction : SshInteraction)
  | sentResponse (message : String)
  | closed
  deriving DecidableEq

/-- The final deceptive response line (`format!` in the source). -/
def sshAuthFailureMsg (client_ip : String) (encoded_disinfo : String) : String :=
  "Authentication failed. For more information, please visit http://" ++ client_ip ++
    ":8080/system-status?details=" ++ encoded_disinfo ++ "\r\n"

/-- Definition `handle_ssh_connection` from ssh_honeypot.rs as its event trace.
`bannerWriteOk` is whether the initial banner write succeeded (on failure
the source shuts the socket and returns early); `encode` stands for
`urlencoding::encode`; `disinformation_content` is what
`log_ssh_interaction` returned. -/
def handle_ssh_connection (bannerWriteOk : Bool) (read_outcome : ReadOutcome)
    (encode : String → String) (client_ip : String) (client_port : Nat)
    (disinformation_content : String) : List SshEvent :=
  if !bannerWriteOk then
    [SshEvent.closed]
  else
    let client_data_raw := clientDataRaw read_outcome
    let username_attempt := (extract_from_raw client_data_raw "user" "username").getD "unknown"
    let password_attempt := (extract_from_raw client_data_raw "pass" "password").getD "unknown"
    let login_method :=
      if strContains client_data_raw "ssh-connection" then "ssh_client_attempt"
      else "raw_tcp_interception"
    let interaction : SshInteraction :=
      { client_banner := strTrim client_data_raw, username_attempt := username_attempt,
        password_attempt := password_attempt, login_method := login_method,
        client_ip := client_ip, client_port := client_port }
    let final_response_message := sshAuthFailureMsg client_ip (encode disinformation_content)
    [SshEvent.sentBanner, SshEvent.logged interaction,
     SshEvent.sentResponse final_response_message, SshEvent.closed]

/-! ## Theorems -/

/-- C5: a request whose path is one of the eight ignored paths, or is
prefixed `/sw.js` or `/service-worker`, or that carries an
`access-control-request-method` header whose value is `OPTIONS`
case-insensitively, is answered with the simple 404 body and never enters
the capture/geolocation/dispatch pipeline. -/
theorem ignored_requests_get_simple_404 (path : String) (headers : Headers)
    (h : path ∈ ignore_paths ∨ strStartsWith path "/sw.js" = true ∨
         strStartsWith path "/service-worker" = true ∨
         ∃ v, hget headers "access-control-request-method" = some v ∧
              toUpperStr v = "OPTIONS") :
    honeypot_handler path headers = HttpAction.ignored generate_simple_404 := by
  have hig : should_ignore_request path headers = true := by
    unfold should_ignore_request
    rcases h with h | h | h | ⟨v, hv, hOpt⟩
    · simp [h]
    · split
      · rfl
      · split
        · rfl
        · simp [h]
    · split
      · rfl
      · split
        · rfl
        · simp [h]
    · split
      · rfl
      · rw [hv]
        simp [hOpt]
  unfold honeypot_handler
  rw [hig]
  simp

/-- Witness for C5 at the concrete path `/favicon.ico` with no headers. -/
theorem ignored_requests_get_simple_404_witness :
    honeypot_handler "/favicon.ico" [] = HttpAction.ignored generate_simple_404 :=
  ignored_requests_get_simple_404 "/favicon.ico" []
    (Or.inl (by decide))

/-- Helper: the list left in the tracker by one `analyze_timing_patterns`
pass has at most 100 entries, and every entry is strictly newer than one
hour before the access time. -/
theorem analyze_timing_patterns_bounds (prev : List Int) (now : Int) :
    ((analyze_timing_patterns prev now).2).length ≤ 100 ∧
    ∀ t ∈ (analyze_timing_patterns prev now).2, now - 3600000 < t := by
  unfold analyze_timing_patterns
  simp only []
  set l := prev ++ [now] with hl
  constructor
  · by_cases h : 100 < l.length
    · simp only [h, if_true]
      calc ((l.drop (l.length - 100)).filter
              (fun timestamp => decide (now - 3600000 < timestamp))).length
          ≤ (l.drop (l.length - 100)).length := List.length_filter_le _ _
        _ ≤ 100 := by rw [List.length_drop]; omega
    · simp only [h, if_false]
      calc (l.filter (fun timestamp => decide (now - 3600000 < timestamp))).length
          ≤ l.length := List.length_filter_le _ _
        _ ≤ 100 := by omega
  · intro t ht
    by_cases h : 100 < l.length <;> simp only [h, if_true, if_false] at ht <;>
      exact of_decide_eq_true (List.mem_filter.mp ht).2

/-- C10: the burst count reported by a timing-analysis pass never exceeds
100, whatever list was stored for the source, because the list is trimmed
to its last 100 entries before the count is taken.  In particular this
holds at every reachable tracker state. -/
theorem burst_requests_le_100 (prev : List Int) (now : Int) :
    (analyze_timing_patterns prev now).1.burst_requests ≤ 100 := by
  unfold analyze_timing_patterns count_recent_burst_requests
  simp only []
  set l := prev ++ [now] with hl
  by_cases h : 100 < l.length
  · simp only [h, if_true]
    calc ((l.drop (l.length - 100)).filter
            (fun timestamp => decide (now - 10000 < timestamp))).length
        ≤ (l.drop (l.length - 100)).length := List.length_filter_le _ _
      _ ≤ 100 := by rw [List.length_drop]; omega
  · simp only [h, if_false]
    calc (l.filter (fun timestamp => decide (now - 10000 < timestamp))).length
        ≤ l.length := List.length_filter_le _ _
      _ ≤ 100 := by omega

/-- C3: in every reachable state of the timing tracker, the sequence stored
for a source that has been accessed holds at most 100 timestamps, and every
one of them is strictly newer than one hour before that source's most
recent access. -/
theorem tracker_invariant (trace : List (String × Int)) (ip : String) (now : Int)
    (h : lastAccess trace ip = some now) :
    ((trackerRun trace) ip).length ≤ 100 ∧
    ∀ t ∈ (trackerRun trace) ip, now - 3600000 < t := by
  induction trace with
  | nil => simp [lastAccess] at h
  | cons e older ih =>
      obtain ⟨k, tm⟩ := e
      by_cases hk : k = ip
      · subst hk
        simp only [lastAccess, if_pos rfl] at h
        obtain rfl : tm = now := Option.some.inj h
        simp only [trackerRun, trackerStep, if_pos rfl]
        exact analyze_timing_patterns_bounds _ _
      · simp only [lastAccess, if_neg hk] at h
        have hk2 : ¬(ip = k) := fun he => hk he.symm
        have := ih h
        simpa only [trackerRun, trackerStep, if_neg hk2] using this

/-- Witness for C3: a single access from one source at time 5. -/
theorem tracker_invariant_witness :
    ((trackerRun [("a", 5)]) "a").length ≤ 100 ∧
    ∀ t ∈ (trackerRun [("a", 5)]) "a", (5 : Int) - 3600000 < t :=
  tracker_invariant [("a", 5)] "a" 5 (by decide)

/-- C9: an SSH connection whose banner read times out (or errors) is still
handled: the sentinel raw string replaces the missing banner, the logged
interaction carries `username_attempt = "unknown"` (and password
`"unknown"`, method raw TCP), and the deceptive authentication-failure
message is written to the client before the socket is closed. -/
theorem ssh_timeout_still_served (encode : String → String) (client_ip : String)
    (client_port : Nat) (disinformation_content : String) :
    handle_ssh_connection true ReadOutcome.failed encode client_ip client_port
        disinformation_content =
      [SshEvent.sentBanner,
       SshEvent.logged
         { client_banner := "No client banner or read error",
           username_attempt := "unknown", password_attempt := "unknown",
           login_method := "raw_tcp_interception",
           client_ip := client_ip, client_port := client_port },
       SshEvent.sentResponse (sshAuthFailureMsg client_ip (encode disinformation_content)),
       SshEvent.closed] ∧
    sshAuthFailureMsg client_ip (encode disinformation_content) =
      "Authentication failed." ++
        (" For more information, please visit http://" ++ client_ip ++
          ":8080/system-status?details=" ++ encode disinformation_content ++ "\r\n") := by
  constructor
  · rfl
  · unfold sshAuthFailureMsg
    rw [show ("Authentication failed. For more information, please visit http://" : String) =
          "Authentication failed." ++ " For more information, please visit http://" from by decide]
    simp only [String.append_assoc]

/-- C4 counterexample: for the timestamps 0, 47, 167, 240, 279 (intervals
47, 120, 73, 39) the exact population variance of the intervals is
3998.75 / 4 = 999.6875 < 1000, so the claim requires `Sequential`; the code
computes the variance in truncating integer arithmetic (mean 69, variance
4001 / 4 = 1000) and classifies `Dictionary`. -/
theorem scan_pattern_exact_variance_counterexample :
    claimScanPattern [0, 47, 167, 240, 279] = ScanPattern.sequential ∧
    determine_scan_pattern [0, 47, 167, 240, 279] = ScanPattern.dictionary ∧
    claimScanPattern [0, 47, 167, 240, 279] ≠ determine_scan_pattern [0, 47, 167, 240, 279] := by
  refine ⟨?_, by decide, ?_⟩
  · norm_num [claimScanPattern, intervalsOf]
  · intro h
    rw [show determine_scan_pattern [0, 47, 167, 240, 279] = ScanPattern.dictionary
          from by decide] at h
    have : claimScanPattern [0, 47, 167, 240, 279] = ScanPattern.sequential := by
      norm_num [claimScanPattern, intervalsOf]
    rw [this] at h
    exact ScanPattern.noConfusion h

/-- C4 amended: the scan-pattern classifier behaves as the claim states
except that mean and variance are computed in Rust's truncating integer
arithmetic (deviations are taken from the truncated integer mean and both
divisions truncate): fewer than 3 samples give Normal; all intervals < 100
ms give Bruteforce; otherwise integer variance < 1000 gives Sequential,
then integer mean < 1000 gives Dictionary, else Random.  Five timestamps
20 ms apart give Bruteforce. -/
theorem determine_scan_pattern_characterization (requests : List Int) :
    (requests.length < 3 → determine_scan_pattern requests = ScanPattern.normal) ∧
    (3 ≤ requests.length → (∀ i ∈ intervalsOf requests, i < 100) →
        determine_scan_pattern requests = ScanPattern.bruteforce) ∧
    (3 ≤ requests.length → (∃ i ∈ intervalsOf requests, 100 ≤ i) →
        Int.tdiv ((intervalsOf requests).map
            (fun i => (i - Int.tdiv (intervalsOf requests).sum (intervalsOf requests).length) ^ 2)).sum
          (intervalsOf requests).length < 1000 →
        determine_scan_pattern requests = ScanPattern.sequential) ∧
    (3 ≤ requests.length → (∃ i ∈ intervalsOf requests, 100 ≤ i) →
        1000 ≤ Int.tdiv ((intervalsOf requests).map
            (fun i => (i - Int.tdiv (intervalsOf requests).sum (intervalsOf requests).length) ^ 2)).sum
          (intervalsOf requests).length →
        Int.tdiv (intervalsOf requests).sum (intervalsOf requests).length < 1000 →
        determine_scan_pattern requests = ScanPattern.dictionary) ∧
    (3 ≤ requests.length → (∃ i ∈ intervalsOf requests, 100 ≤ i) →
        1000 ≤ Int.tdiv ((intervalsOf requests).map
            (fun i => (i - Int.tdiv (intervalsOf requests).sum (intervalsOf requests).length) ^ 2)).sum
          (intervalsOf requests).length →
        1000 ≤ Int.tdiv (intervalsOf requests).sum (intervalsOf requests).length →
        determine_scan_pattern requests = ScanPattern.random) ∧
    determine_scan_pattern [0, 20, 40, 60, 80] = ScanPattern.bruteforce := by
  have hall : ∀ (l : List Int), (l.all (fun interval => decide (interval < 100)) = true) ↔
      ∀ i ∈ l, i < 100 := by
    intro l
    simp [List.all_eq_true]
  refine ⟨?_, ?_, ?_, ?_, ?_, by decide⟩
  · intro h
    unfold determine_scan_pattern
    rw [if_pos h]
  · intro h hlt
    unfold determine_scan_pattern
    rw [if_neg (by omega), if_pos ((hall _).mpr hlt)]
  · intro h ⟨i, hi, hge⟩ hvar
    unfold determine_scan_pattern
    rw [if_neg (by omega),
        if_neg (by intro hc; exact absurd ((hall _).mp hc i hi) (by omega)),
        if_pos hvar]
  · intro h ⟨i, hi, hge⟩ hvar hmean
    unfold determine_scan_pattern
    rw [if_neg (by omega),
        if_neg (by intro hc; exact absurd ((hall _).mp hc i hi) (by omega)),
        if_neg (by omega), if_pos hmean]
  · intro h ⟨i, hi, hge⟩ hvar hmean
    unfold determine_scan_pattern
    rw [if_neg (by omega),
        if_neg (by intro hc; exact absurd ((hall _).mp hc i hi) (by omega)),
        if_neg (by omega), if_neg (by omega)]

/-- Witness for the amended C4 theorem: five timestamps 20 ms apart satisfy
the Bruteforce branch's hypotheses. -/
theorem determine_scan_pattern_characterization_witness :
    determine_scan_pattern [0, 20, 40, 60, 80] = ScanPattern.bruteforce :=
  (determine_scan_pattern_characterization [0, 20, 40, 60, 80]).2.1 (by decide) (by decide)

/-- C6 counterexample: the IPv4 link-local address 169.254.1.1 is in the
claim's skip class (link-local), yet `lookup_geoip` does attempt the
provider call for it: the code's skip test checks only private, loopback
and multicast for IPv4. -/
theorem geoip_linklocal_counterexample :
    claimSkipClass (IpAddr.v4 169 254 1 1) = true ∧
    (lookup_geoip (IpAddr.v4 169 254 1 1) none).1 = true := by
  decide

/-- C6 amended: the lookup is skipped (never attempted, all-empty location)
exactly for the code's class — IPv4 private, loopback or multicast; IPv6
loopback, multicast or unspecified — and whenever the lookup is attempted,
every provider failure (no response, non-success HTTP status, unparseable
body, or provider status ≠ "success") yields the all-empty location; the
function is total, so no error reaches the caller. -/
theorem lookup_geoip_failures_empty (ip : IpAddr) (provider : Option GeoApiResponse) :
    (lookupSkipClass ip = true →
        lookup_geoip ip provider = (false, geoLocationDefault)) ∧
    ((provider = none ∨
        ∃ r, provider = some r ∧
          (r.status_success = false ∨ r.body = none ∨
            ∃ g, r.body = some g ∧ (g.status == some "success") = false)) →
        (lookup_geoip ip provider).2 = geoLocationDefault) := by
  constructor
  · intro h
    unfold lookup_geoip
    rw [if_pos h]
  · intro h
    unfold lookup_geoip
    by_cases hskip : lookupSkipClass ip = true
    · rw [if_pos hskip]
    · rw [if_neg hskip]
      rcases h with rfl | ⟨r, rfl, hr⟩
      · rfl
      · rcases hr with hs | hb | ⟨g, hg, hne⟩
        · simp [hs]
        · simp [hb]
        · simp [hg, hne]

/-- Witness for the amended C6 theorem: the loopback address 127.0.0.1 is
skipped. -/
theorem lookup_geoip_failures_empty_witness :
    lookup_geoip (IpAddr.v4 127 0 0 1) none = (false, geoLocationDefault) :=
  (lookup_geoip_failures_empty (IpAddr.v4 127 0 0 1) none).1 (by decide)

/-- C7 counterexample: with no headers, path `/`, and body `<script>`, the
claim's indicator score is 0.4 (missing-header bonus plus the body XSS
bonus), but the code scores 0.2: its XSS check inspects only the path. -/
theorem indicator_body_xss_counterexample :
    claimIndicatorScore (fun _ _ => false) [] "/" (some "<script>") = 0.4 ∧
    check_additional_scanner_indicators (fun _ _ => false) [] "/" (some "<script>") = 0.2 ∧
    claimIndicatorScore (fun _ _ => false) [] "/" (some "<script>") ≠
      check_additional_scanner_indicators (fun _ _ => false) [] "/" (some "<script>") := by
  have h1 : claimIndicatorScore (fun _ _ => false) [] "/" (some "<script>") = 0.4 := by
    simp only [claimIndicatorScore,
      show xssPathHit "/" = false from by decide,
      show xssBodyHit (some "<script>") = true from by decide,
      show sqlBodyHit (fun _ _ => false) (some "<script>") = false from by decide,
      show (suspicious_headers.countP (fun header => containsKey ([] : Headers) header)) = 0
        from by decide,
      show (browser_headers.countP (fun header => !(containsKey ([] : Headers) header))) = 4
        from by decide]
    norm_num
  have h2 : check_additional_scanner_indicators (fun _ _ => false) [] "/" (some "<script>")
      = 0.2 := by
    simp only [check_additional_scanner_indicators,
      show xssPathHit "/" = false from by decide,
      show sqlBodyHit (fun _ _ => false) (some "<script>") = false from by decide,
      show (browser_headers.filter
              (fun header => !(containsKey ([] : Headers) header))).length = 4 from by decide]
    norm_num [suspicious_headers, containsKey]
  refine ⟨h1, h2, ?_⟩
  rw [h1, h2]
  norm_num

/-- Helper: the suspicious-header accumulation loop counts 0.1 per present
header. -/
theorem foldl_suspicious_count (headers : Headers) (l : List String) (a : ℚ) :
    l.foldl (fun acc header => if containsKey headers header then acc + 0.1 else acc) a =
      a + (l.countP (fun header => containsKey headers header)) * 0.1 := by
  induction l generalizing a with
  | nil => simp
  | cons x xs ih =>
      simp only [List.foldl_cons, List.countP_cons]
      by_cases hx : containsKey headers x = true
      · rw [if_pos hx, ih]
        simp only [hx, if_true]
        push_cast
        ring
      · rw [if_neg hx, ih]
        simp [hx]

/-- C7 amended: the generic indicator score the code adds equals 0.1 per
present automation header, plus 0.2 when more than two of the four common
browser headers are absent, plus 0.3 when the body matches a SQL-injection
pattern, plus 0.2 when the **path** (only) matches an XSS pattern. -/
theorem check_additional_scanner_indicators_eq_amended (m : String → String → Bool)
    (headers : Headers) (request_path : String) (request_body : Option String) :
    check_additional_scanner_indicators m headers request_path request_body =
      amendedIndicatorScore m headers request_path request_body := by
  unfold check_additional_scanner_indicators amendedIndicatorScore
  simp only []
  rw [foldl_suspicious_count]
  rw [show (browser_headers.filter (fun header => !(containsKey headers header))).length =
        browser_headers.countP (fun header => !(containsKey headers header)) from
        (List.countP_eq_length_filter _ _).symm]
  split_ifs <;> ring

/-- C8: a user-agent containing any denylist token is classified "not a
real browser" regardless of all other headers; otherwise the request is
classified a real browser exactly when the integer score of the claim's
formula is at least 4. -/
theorem browser_authenticity_claim (user_agent accept accept_language accept_encoding : String)
    (headers : Headers) :
    ((∃ tok ∈ non_browser_indicators, strContains (toLowerStr user_agent) tok = true) →
        analyze_browser_authenticity user_agent accept accept_language accept_encoding headers
          = false) ∧
    ((∀ tok ∈ non_browser_indicators, strContains (toLowerStr user_agent) tok = false) →
        (analyze_browser_authenticity user_agent accept accept_language accept_encoding headers
            = true ↔
          4 ≤ specAuthenticityScore user_agent accept accept_language accept_encoding headers)) := by
  constructor
  · rintro ⟨tok, htok, hc⟩
    have hany : non_browser_indicators.any
        (fun indicator => strContains (toLowerStr user_agent) indicator) = true :=
      List.any_eq_true.mpr ⟨tok, htok, hc⟩
    unfold analyze_browser_authenticity
    simp only [hany, if_true]
  · intro hall
    have hany : non_browser_indicators.any
        (fun indicator => strContains (toLowerStr user_agent) indicator) = false := by
      rw [Bool.eq_false_iff]
      intro hc
      obtain ⟨tok, htok, hcc⟩ := List.any_eq_true.mp hc
      rw [hall tok htok] at hcc
      exact Bool.false_ne_true hcc
    unfold analyze_browser_authenticity specAuthenticityScore
    simp only [hany, Bool.false_eq_true, if_false, decide_eq_true_eq]
    have hae : (!(accept_encoding == "") && strContains accept_encoding "gzip")
        = strContains accept_encoding "gzip" := by
      by_cases h : accept_encoding = ""
      · subst h
        decide
      · simp [h]
    rw [hae]
    have hacc : (if !(accept == "") then (1 : Nat) else 0) = (if accept ≠ "" then 1 else 0) := by
      by_cases h : accept = "" <;> simp [h]
    have haccl : (if !(accept_language == "") then (1 : Nat) else 0)
        = (if accept_language ≠ "" then 1 else 0) := by
      by_cases h : accept_language = "" <;> simp [h]
    have hsec : (if (containsKey headers "sec-fetch-dest" || containsKey headers "sec-fetch-mode"
            || containsKey headers "sec-fetch-site") then (2 : Nat) else 0)
        = (if containsKey headers "sec-fetch-dest" = true
              ∨ containsKey headers "sec-fetch-mode" = true
              ∨ containsKey headers "sec-fetch-site" = true then 2 else 0) := by
      by_cases h1 : containsKey headers "sec-fetch-dest" = true <;>
        by_cases h2 : containsKey headers "sec-fetch-mode" = true <;>
        by_cases h3 : containsKey headers "sec-fetch-site" = true <;>
        simp [h1, h2, h3]
    rw [hacc, haccl, hsec]

/-- Witness for C8: the user-agent `curl` is denylisted, so the analyzer
returns false. -/
theorem browser_authenticity_claim_witness :
    analyze_browser_authenticity "curl" "" "" "" [] = false :=
  (browser_authenticity_claim "curl" "" "" "" []).1 ⟨"curl", by decide, by decide⟩

/-- Helper: the threshold cascade of `calculate_threat_level` classifies a
score S as critical iff 7 ≤ S, high iff 5 ≤ S < 7, medium iff 3 ≤ S < 5,
and low iff S < 3. -/
theorem threat_cascade_spec (S : ℚ) :
    ((if 7 ≤ S then ThreatLevel.critical
      else if 5 ≤ S then ThreatLevel.high
      else if 3 ≤ S then ThreatLevel.medium
      else ThreatLevel.low) = ThreatLevel.critical ↔ 7 ≤ S) ∧
    ((if 7 ≤ S then ThreatLevel.critical
      else if 5 ≤ S then ThreatLevel.high
      else if 3 ≤ S then ThreatLevel.medium
      else ThreatLevel.low) = ThreatLevel.high ↔ 5 ≤ S ∧ S < 7) ∧
    ((if 7 ≤ S then ThreatLevel.critical
      else if 5 ≤ S then ThreatLevel.high
      else if 3 ≤ S then ThreatLevel.medium
      else ThreatLevel.low) = ThreatLevel.medium ↔ 3 ≤ S ∧ S < 5) ∧
    ((if 7 ≤ S then ThreatLevel.critical
      else if 5 ≤ S then ThreatLevel.high
      else if 3 ≤ S then ThreatLevel.medium
      else ThreatLevel.low) = ThreatLevel.low ↔ S < 3) := by
  split_ifs with h1 h2 h3 <;>
    refine ⟨?_, ?_, ?_, ?_⟩ <;> constructor <;> intro hh <;>
    first
      | rfl
      | exact hh.elim
      | exact ThreatLevel.noConfusion hh
      | linarith
      | (obtain ⟨hha, hhb⟩ := hh; linarith)
      | exact ⟨by linarith, by linarith⟩

/-- Helper: `calculate_threat_level` computes the claim's score formula and
classifies it through the threshold cascade. -/
theorem calculate_threat_level_eq_cascade (scanner_confidence : ℚ)
    (timing_patterns : TimingPattern) (browser_fingerprint : Option BrowserFingerprint) :
    calculate_threat_level scanner_confidence timing_patterns browser_fingerprint =
      (if 7 ≤ specThreatScore scanner_confidence timing_patterns.scan_pattern
              timing_patterns.burst_requests browser_fingerprint then ThreatLevel.critical
       else if 5 ≤ specThreatScore scanner_confidence timing_patterns.scan_pattern
              timing_patterns.burst_requests browser_fingerprint then ThreatLevel.high
       else if 3 ≤ specThreatScore scanner_confidence timing_patterns.scan_pattern
              timing_patterns.burst_requests browser_fingerprint then ThreatLevel.medium
       else ThreatLevel.low) := by
  have hscore : (0 : ℚ) + scanner_confidence * 4 +
      (match timing_patterns.scan_pattern with
       | ScanPattern.bruteforce => (3 : ℚ)
       | ScanPattern.sequential => 2
       | ScanPattern.dictionary => 2.5
       | ScanPattern.random => 1
       | ScanPattern.normal => 0) +
      (if 50 < timing_patterns.burst_requests then (2 : ℚ)
       else if 10 < timing_patterns.burst_requests then 1
       else 0) +
      (match browser_fingerprint with
       | some browser => if !browser.is_real_browser then (2 : ℚ) else 0
       | none => 0) =
      specThreatScore scanner_confidence timing_patterns.scan_pattern
        timing_patterns.burst_requests browser_fingerprint := by
    unfold specThreatScore patternBonus burstBonus browserBonus
    rcases timing_patterns with ⟨ri, burst, sp⟩
    rcases browser_fingerprint with _ | bf
    · cases sp <;> simp <;> ring
    · cases sp <;> cases hb : bf.is_real_browser <;> simp [hb] <;> ring
  unfold calculate_threat_level
  simp only []
  rw [hscore]

/-- C2: for any confidence in [0, 1], scan pattern, burst count and browser
judgement, the aggregated level relates to the claim's score
`4·confidence + pattern bonus + burst bonus + browser bonus` exactly by the
stated thresholds, and the concrete instance (confidence 1, Bruteforce,
60 bursts, not a real browser) is Critical. -/
theorem threat_level_claim (scanner_confidence : ℚ) (timing_patterns : TimingPattern)
    (browser_fingerprint : Option BrowserFingerprint)
    (h0 : 0 ≤ scanner_confidence) (h1 : scanner_confidence ≤ 1) :
    ((calculate_threat_level scanner_confidence timing_patterns browser_fingerprint
        = ThreatLevel.critical ↔
      7 ≤ specThreatScore scanner_confidence timing_patterns.scan_pattern
            timing_patterns.burst_requests browser_fingerprint) ∧
     (calculate_threat_level scanner_confidence timing_patterns browser_fingerprint
        = ThreatLevel.high ↔
      5 ≤ specThreatScore scanner_confidence timing_patterns.scan_pattern
            timing_patterns.burst_requests browser_fingerprint ∧
      specThreatScore scanner_confidence timing_patterns.scan_pattern
            timing_patterns.burst_requests browser_fingerprint < 7) ∧
     (calculate_threat_level scanner_confidence timing_patterns browser_fingerprint
        = ThreatLevel.medium ↔
      3 ≤ specThreatScore scanner_confidence timing_patterns.scan_pattern
            timing_patterns.burst_requests browser_fingerprint ∧
      specThreatScore scanner_confidence timing_patterns.scan_pattern
            timing_patterns.burst_requests browser_fingerprint < 5) ∧
     (calculate_threat_level scanner_confidence timing_patterns browser_fingerprint
        = ThreatLevel.low ↔
      specThreatScore scanner_confidence timing_patterns.scan_pattern
            timing_patterns.burst_requests browser_fingerprint < 3)) ∧
    calculate_threat_level 1
        { request_interval_ms := none, burst_requests := 60,
          scan_pattern := ScanPattern.bruteforce }
        (some { is_real_browser := false, engine := none, version := none, os := none,
                javascript_enabled := false, canvas_fingerprint := none })
      = ThreatLevel.critical := by
  constructor
  · rw [calculate_threat_level_eq_cascade]
    exact threat_cascade_spec _
  · rw [calculate_threat_level_eq_cascade]
    have : specThreatScore 1 ScanPattern.bruteforce 60
        (some { is_real_browser := false, engine := none, version := none, os := none,
                javascript_enabled := false, canvas_fingerprint := none }) = 11 := by
      unfold specThreatScore patternBonus burstBonus browserBonus
      norm_num
    rw [this]
    norm_num

/-- Witness for C2 at confidence 0 with no activity: the level is Low. -/
theorem threat_level_claim_witness :
    calculate_threat_level 0
        { request_interval_ms := none, burst_requests := 0, scan_pattern := ScanPattern.normal }
        none = ThreatLevel.low :=
  ((threat_level_claim 0
      { request_interval_ms := none, burst_requests := 0, scan_pattern := ScanPattern.normal }
      none (by norm_num) (by norm_num)).1.2.2.2).mpr
    (by unfold specThreatScore patternBonus burstBonus browserBonus; norm_num)

/-- Helper: a fold whose step never decreases the accumulator ends at or
above its start. -/
theorem foldl_le_of_step {α : Type} (f : ℚ → α → ℚ) (hf : ∀ a x, a ≤ f a x) :
    ∀ (l : List α) (a : ℚ), a ≤ l.foldl f a := by
  intro l
  induction l with
  | nil => intro a; simp
  | cons x xs ih => intro a; exact le_trans (hf a x) (ih (f a x))

/-- Helper: the User-Agent score component is nonnegative. -/
theorem sigUserAgentScore_nonneg (m : String → String → Bool) (headers : Headers)
    (sig : ScannerSignature) : 0 ≤ sigUserAgentScore m headers sig := by
  unfold sigUserAgentScore
  rcases hget headers "User-Agent" with _ | ua
  · exact le_refl 0
  · exact foldl_le_of_step _ (fun a x => by split_ifs <;> linarith) _ 0

/-- Helper: the header-pattern score component is nonnegative. -/
theorem sigHeaderScore_nonneg (m : String → String → Bool) (headers : Headers)
    (sig : ScannerSignature) : 0 ≤ sigHeaderScore m headers sig := by
  unfold sigHeaderScore
  refine foldl_le_of_step _ (fun a x => ?_) _ 0
  rcases hh : hget headers x.1 with _ | v
  · simp [hh]
  · simp only [hh]
    show a ≤ if m x.2 (toLowerStr v) = true then a + 0.3 else a
    split_ifs <;> linarith

/-- Helper: the path-pattern score component is nonnegative. -/
theorem sigPathScore_nonneg (m : String → String → Bool) (request_path : String)
    (sig : ScannerSignature) : 0 ≤ sigPathScore m request_path sig := by
  unfold sigPathScore
  exact foldl_le_of_step _ (fun a x => by split_ifs <;> linarith) _ 0

/-- Helper: the generic indicator score is nonnegative. -/
theorem check_additional_scanner_indicators_nonneg (m : String → String → Bool)
    (headers : Headers) (request_path : String) (request_body : Option String) :
    0 ≤ check_additional_scanner_indicators m headers request_path request_body := by
  unfold check_additional_scanner_indicators
  have h1 : (0 : ℚ) ≤ suspicious_headers.foldl
      (fun acc header => if containsKey headers header then acc + 0.1 else acc) 0 :=
    foldl_le_of_step _ (fun a x => by split_ifs <;> linarith) _ 0
  simp only []
  split_ifs <;> linarith

/-- Helper: every accumulated signature score is nonnegative. -/
theorem sigScore_nonneg (m : String → String → Bool) (headers : Headers)
    (request_path : String) (request_body : Option String) (sig : ScannerSignature) :
    0 ≤ sigScore m headers request_path request_body sig := by
  unfold sigScore
  have h1 := sigUserAgentScore_nonneg m headers sig
  have h2 := sigHeaderScore_nonneg m headers sig
  have h3 := sigPathScore_nonneg m request_path sig
  have h4 := check_additional_scanner_indicators_nonneg m headers request_path request_body
  linarith

/-- Helper: every catalog threshold is strictly positive. -/
theorem catalog_thresholds_pos : ∀ s ∈ SCANNER_SIGNATURES, 0 < s.confidence_threshold := by
  intro s hs
  fin_cases hs <;> norm_num

/-- Helper: the accumulator loop of `detect_scanner_tool` either leaves the
accumulator untouched (no signature beats both its threshold and the
running best), or returns the first signature attaining the maximal
qualifying score above the initial best. -/
theorem detectGo_characterization (m : String → String → Bool) (headers : Headers)
    (request_path : String) (request_body : Option String) :
    ∀ (l : List ScannerSignature) (best : Option String) (hi : ℚ),
    (detectGo m headers request_path request_body l (best, hi) = (best, hi) ∧
      ∀ s ∈ l, ¬(s.confidence_threshold < sigScore m headers request_path request_body s ∧
                 hi < sigScore m headers request_path request_body s)) ∨
    (∃ pre s post, l = pre ++ s :: post ∧
      s.confidence_threshold < sigScore m headers request_path request_body s ∧
      hi < sigScore m headers request_path request_body s ∧
      detectGo m headers request_path request_body l (best, hi) =
        (some s.name, sigScore m headers request_path request_body s) ∧
      (∀ t ∈ pre,
        ¬(t.confidence_threshold < sigScore m headers request_path request_body t ∧
          sigScore m headers request_path request_body s ≤
            sigScore m headers request_path request_body t)) ∧
      (∀ t ∈ post,
        ¬(t.confidence_threshold < sigScore m headers request_path request_body t ∧
          sigScore m headers request_path request_body s <
            sigScore m headers request_path request_body t))) := by
  intro l
  induction l with
  | nil =>
      intro best hi
      left
      exact ⟨rfl, by simp⟩
  | cons sig rest ih =>
      intro best hi
      by_cases hq : sig.confidence_threshold < sigScore m headers request_path request_body sig ∧
          hi < sigScore m headers request_path request_body sig
      · have hstep : detectGo m headers request_path request_body (sig :: rest) (best, hi) =
            detectGo m headers request_path request_body rest
              (some sig.name, sigScore m headers request_path request_body sig) := by
          show (if sig.confidence_threshold < sigScore m headers request_path request_body sig ∧
                  (best, hi).2 < sigScore m headers request_path request_body sig then _ else _) = _
          rw [if_pos hq]
        rcases ih (some sig.name) (sigScore m headers request_path request_body sig) with
          ⟨heq, hnone⟩ | ⟨pre, s, post, hsplit, hths, hhis, heq, hpre, hpost⟩
        · right
          refine ⟨[], sig, rest, rfl, hq.1, hq.2, by rw [hstep, heq], by simp, ?_⟩
          intro t ht hcon
          exact hnone t ht hcon
        · right
          refine ⟨sig :: pre, s, post, by rw [hsplit, List.cons_append], hths,
            lt_trans hq.2 hhis, by rw [hstep, heq], ?_, hpost⟩
          intro t ht
          rcases List.mem_cons.mp ht with rfl | htp
          · rintro ⟨hth, hge⟩
            exact absurd (lt_of_lt_of_le hhis hge) (lt_irrefl _)
          · exact hpre t htp
      · have hstep : detectGo m headers request_path request_body (sig :: rest) (best, hi) =
            detectGo m headers request_path request_body rest (best, hi) := by
          show (if sig.confidence_threshold < sigScore m headers request_path request_body sig ∧
                  (best, hi).2 < sigScore m headers request_path request_body sig then _ else _) = _
          rw [if_neg hq]
        rcases ih best hi with
          ⟨heq, hnone⟩ | ⟨pre, s, post, hsplit, hths, hhis, heq, hpre, hpost⟩
        · left
          refine ⟨by rw [hstep, heq], ?_⟩
          intro t ht
          rcases List.mem_cons.mp ht with rfl | htp
          · exact hq
          · exact hnone t htp
        · right
          refine ⟨sig :: pre, s, post, by rw [hsplit, List.cons_append], hths, hhis,
            by rw [hstep, heq], ?_, hpost⟩
          intro t ht
          rcases List.mem_cons.mp ht with rfl | htp
          · rintro ⟨hth, hge⟩
            exact hq ⟨hth, lt_of_lt_of_le hhis hge⟩
          · exact hpre t htp

/-- C1: the scanner matcher reports a signature only when that signature's
score strictly beats both its own threshold and every other qualifying
score in the catalog before it (strictly beats those after it, so the first
declared wins ties); the reported confidence is the winning score clamped
to [0, 1]; when no signature beats its threshold the name is absent and the
confidence is 0; the whole catalog participates (the returned signature's
strict maximality constrains every declared signature). -/
theorem detect_scanner_tool_claim (m : String → String → Bool) (headers : Headers)
    (request_path : String) (request_body : Option String) :
    ((detect_scanner_tool m headers request_path request_body).1 = none →
        (detect_scanner_tool m headers request_path request_body).2 = 0 ∧
        ∀ s ∈ SCANNER_SIGNATURES,
          sigScore m headers request_path request_body s ≤ s.confidence_threshold) ∧
    (∀ nm, (detect_scanner_tool m headers request_path request_body).1 = some nm →
        ∃ pre s post, SCANNER_SIGNATURES = pre ++ s :: post ∧ s.name = nm ∧
          s.confidence_threshold < sigScore m headers request_path request_body s ∧
          (detect_scanner_tool m headers request_path request_body).2 =
            min (sigScore m headers request_path request_body s) 1 ∧
          (∀ t ∈ pre, t.confidence_threshold < sigScore m headers request_path request_body t →
              sigScore m headers request_path request_body t <
                sigScore m headers request_path request_body s) ∧
          (∀ t ∈ post, t.confidence_threshold < sigScore m headers request_path request_body t →
              sigScore m headers request_path request_body t ≤
                sigScore m headers request_path request_body s)) ∧
    ((∀ s ∈ SCANNER_SIGNATURES,
        sigScore m headers request_path request_body s ≤ s.confidence_threshold) →
        detect_scanner_tool m headers request_path request_body = (none, 0)) ∧
    0 ≤ (detect_scanner_tool m headers request_path request_body).2 ∧
    (detect_scanner_tool m headers request_path request_body).2 ≤ 1 := by
  rcases detectGo_characterization m headers request_path request_body SCANNER_SIGNATURES none 0
    with ⟨heq, hnone⟩ | ⟨pre, s, post, hsplit, hths, hhis, heq, hpre, hpost⟩
  · have hd : detect_scanner_tool m headers request_path request_body = (none, 0) := by
      unfold detect_scanner_tool
      rw [heq]
      norm_num
    refine ⟨?_, ?_, ?_, ?_, ?_⟩
    · intro _
      refine ⟨by rw [hd], ?_⟩
      intro t ht
      by_contra hlt
      push_neg at hlt
      exact hnone t ht ⟨hlt, lt_trans (catalog_thresholds_pos t ht) hlt⟩
    · intro nm hnm
      rw [hd] at hnm
      exact Option.noConfusion hnm
    · intro _
      exact hd
    · rw [hd]
    · rw [hd]
      norm_num
  · have hd1 : (detect_scanner_tool m headers request_path request_body).1 = some s.name := by
      unfold detect_scanner_tool
      rw [heq]
    have hd2 : (detect_scanner_tool m headers request_path request_body).2 =
        min (sigScore m headers request_path request_body s) 1 := by
      unfold detect_scanner_tool
      rw [heq]
    have hmem : s ∈ SCANNER_SIGNATURES := by
      rw [hsplit]
      exact List.mem_append_right pre (List.mem_cons_self s post)
    refine ⟨?_, ?_, ?_, ?_, ?_⟩
    · intro hcontra
      rw [hd1] at hcontra
      exact Option.noConfusion hcontra
    · intro nm hnm
      rw [hd1] at hnm
      refine ⟨pre, s, post, hsplit, Option.some.inj hnm, hths, hd2, ?_, ?_⟩
      · intro t ht hth
        by_contra hge
        push_neg at hge
        exact hpre t ht ⟨hth, hge⟩
      · intro t ht hth
        by_contra hgt
        push_neg at hgt
        exact hpost t ht ⟨hth, hgt⟩
    · intro hall
      exact absurd hths (not_lt.mpr (hall s hmem))
    · rw [hd2]
      exact le_min (sigScore_nonneg m headers request_path request_body s) (by norm_num)
    · rw [hd2]
      exact min_le_right _ _

/-- Witness for C1: with a matcher that never fires and an empty header
map, no signature beats its threshold, so the matcher reports no scanner
and confidence 0. -/
theorem detect_scanner_tool_claim_witness :
    detect_scanner_tool (fun _ _ => false) [] "/" none = (none, 0) :=
  (detect_scanner_tool_claim (fun _ _ => false) [] "/" none).2.2.1
    (by
      intro s hs
      fin_cases hs <;>
        norm_num [sigScore, sigUserAgentScore, sigHeaderScore, sigPathScore,
          check_additional_scanner_indicators, hget, containsKey, suspicious_headers,
          browser_headers, sqlBodyHit,
          show xssPathHit "/" = false from by decide])
